import Mathlib

/-!
Verification of the TI SimpleLink internal-NVS demo
(`TI_SimpleLink_nvsInternal.c`) against its design specification.

The repository's only source file is the demo `mainThread`, a straight-line
caller of the vendor NVS driver (`NVS_open` / `NVS_getAttrs` / `NVS_read` /
`NVS_write`).  The driver itself is not part of the repository, so its
read/write semantics are modelled here from the specification's
FlashRegionStore contract; the demo's own logic (its call sequence, offsets,
mode flags, byte-level serialization and the `Display_open` failure halt) is
embedded directly from the C source.
-/

namespace NvsDemo

/-- Attributes of an NVS region: region base address, sector (page) size and
region size, as populated by `NVS_getAttrs` into an `NVS_Attrs` structure. -/
structure NvsAttrs where
  regionBase : Nat
  sectorSize : Nat
  regionSize : Nat
deriving DecidableEq

/-- The write mode bitmask: the two flags `NVS_WRITE_ERASE` and
`NVS_WRITE_POST_VERIFY`. -/
structure WriteMode where
  eraseFlag : Bool
  postVerify : Bool
deriving DecidableEq

/-- Error outcomes of the FlashRegionStore read/write operations. -/
inductive NvsErr
  | outOfBounds
  | verifyError
deriving DecidableEq

/-- The contents of the region: the byte stored at each region-relative
offset. -/
abbrev Store := Nat → Nat

/-- The bytes at offsets `o, o+1, ..., o+l-1` of a store. -/
def readBytes (st : Store) (o l : Nat) : List Nat :=
  (List.range l).map fun i => st (o + i)

/-- Modelled from the spec: `read(handle, offset, length)` copies `length`
bytes starting at `offset` into a caller buffer; it fails with
`OutOfBoundsError` if `[offset, offset+length)` exceeds the region
(`NVS_read` is not part of the repository's source). -/
def nvsRead (a : NvsAttrs) (st : Store) (o l : Nat) : Except NvsErr (List Nat) :=
  if o + l ≤ a.regionSize then Except.ok (readBytes st o l)
  else Except.error NvsErr.outOfBounds

/-- The index of the sector (page) containing a given region-relative
offset. -/
def sectorOf (a : NvsAttrs) (i : Nat) : Nat := i / a.sectorSize

/-- Modelled from the spec: erasing the containing sector(s) of the span
`[o, o+l)` sets every byte of those sectors to the erased-state pattern
(all bits set, `0xff`). -/
def eraseSpan (a : NvsAttrs) (st : Store) (o l : Nat) : Store :=
  fun i =>
    if 0 < l ∧ sectorOf a o ≤ sectorOf a i ∧ sectorOf a i ≤ sectorOf a (o + l - 1)
    then 0xff else st i

/-- Overlaying the bytes `bytes` on a store at offset `o`. -/
def storeBytes (st : Store) (o : Nat) (bytes : List Nat) : Store :=
  fun i => if o ≤ i ∧ i < o + bytes.length then bytes.getD (i - o) 0 else st i

/-- Modelled from the spec: the region contents after the medium has carried
out a write of `bytes` at `o` — the containing sectors are erased when the
`ERASE` flag is set, the payload bytes are programmed, and the medium maps
each intended byte to the byte it actually retains (`medium i b` is the byte
the hardware keeps at offset `i` when asked to store `b`; a faithful medium
keeps `b`). -/
def writtenStore (a : NvsAttrs) (medium : Nat → Nat → Nat) (st : Store) (o : Nat)
    (bytes : List Nat) (mode : WriteMode) : Store :=
  fun i =>
    medium i
      (storeBytes (if mode.eraseFlag then eraseSpan a st o bytes.length else st) o bytes i)

/-- Modelled from the spec: `write(handle, offset, bytes, mode)` fails with
`OutOfBoundsError` — performing no storage mutation — if the span crosses the
region boundary; otherwise the medium carries out the (erase and) program
steps, and when `POST_VERIFY` is set the result is read back and compared,
failing with `VerifyError` on mismatch while the sector retains the last
attempted write (`NVS_write` is not part of the repository's source). -/
def nvsWrite (a : NvsAttrs) (medium : Nat → Nat → Nat) (st : Store) (o : Nat)
    (bytes : List Nat) (mode : WriteMode) : Except NvsErr Unit × Store :=
  if o + bytes.length ≤ a.regionSize then
    if mode.postVerify ∧ readBytes (writtenStore a medium st o bytes mode) o bytes.length ≠ bytes
    then (Except.error NvsErr.verifyError, writtenStore a medium st o bytes mode)
    else (Except.ok (), writtenStore a medium st o bytes mode)
  else (Except.error NvsErr.outOfBounds, st)

/-- A medium that retains every byte exactly as written. -/
def faithfulMedium : Nat → Nat → Nat := fun _ b => b

/-- The demo configuration from the source:
`NVS_REGIONS_BASE 0x2000`, `SECTORSIZE 0x1000`, `REGIONSIZE (SECTORSIZE * 24)`. -/
def demoAttrs : NvsAttrs :=
  { regionBase := 0x2000, sectorSize := 0x1000, regionSize := 0x1000 * 24 }

/-- Modelled from the spec: `open(config)` validates the configuration —
positive sector size, sector size dividing the region size, sector-aligned
region base — and returns a handle carrying the region attributes, or fails
(`NVS_open` is not part of the repository's source). -/
def nvsOpen (cfg : NvsAttrs) : Option NvsAttrs :=
  if 0 < cfg.sectorSize ∧ cfg.regionSize % cfg.sectorSize = 0 ∧
      cfg.regionBase % cfg.sectorSize = 0
  then some cfg else none

/-- `attributes(handle)`: pure read of the static metadata held by the
handle. -/
def getAttrs (h : NvsAttrs) : NvsAttrs := h

/-- `NVS_WRITE_ERASE | NVS_WRITE_POST_VERIFY`, the mode passed by every
`NVS_write` call in `mainThread`. -/
def eraseVerify : WriteMode := { eraseFlag := true, postVerify := true }

/-- One NVS driver call issued by `mainThread`. -/
inductive NvsOp
  | openOp
  | getAttrsOp
  | readOp (offset len : Nat)
  | writeOp (offset len : Nat) (mode : WriteMode)
deriving DecidableEq

/-- The sequence of NVS driver calls `mainThread` issues, paired with whether
`mainThread` returns, as a function of whether `Display_open` and `NVS_open`
succeed.  From the source: a NULL `Display_open` result enters `while (1);`
before any NVS call, so no call is issued and the thread never returns; a
NULL `NVS_open` result returns right after the failed open; otherwise the
thread reads 4 bytes at offsets 0x10000, 0x4000, 0x14000, 0x17000 and then
writes 4 bytes at the same offsets with `NVS_WRITE_ERASE | NVS_WRITE_POST_VERIFY`. -/
def mainThreadNvsOps (displayOpenOk nvsOpenOk : Bool) : List NvsOp × Bool :=
  if displayOpenOk = false then ([], false)
  else if nvsOpenOk = false then ([NvsOp.openOp], true)
  else
    ([NvsOp.openOp, NvsOp.getAttrsOp,
      NvsOp.readOp 0x10000 4, NvsOp.readOp 0x4000 4,
      NvsOp.readOp 0x14000 4, NvsOp.readOp 0x17000 4,
      NvsOp.writeOp 0x10000 4 eraseVerify, NvsOp.writeOp 0x4000 4 eraseVerify,
      NvsOp.writeOp 0x14000 4 eraseVerify, NvsOp.writeOp 0x17000 4 eraseVerify],
     true)

/-- Low byte of the demo's 16-bit encoding: `buffer[0] = v & 0x00FF`. -/
def enc16lo (v : Nat) : Nat := v &&& 0x00FF

/-- High byte of the demo's 16-bit encoding: `buffer[1] = (v & 0xFF00) >> 8`. -/
def enc16hi (v : Nat) : Nat := (v &&& 0xFF00) >>> 8

/-- The demo's 16-bit decoding: `buffer[0] | (buffer[1] << 8)`. -/
def dec16 (b0 b1 : Nat) : Nat := b0 ||| (b1 <<< 8)

/-- The C conversion of a signed value to `uint16_t`: reduction modulo 2^16. -/
def castToU16 (x : Int) : Nat := (x % 65536).toNat

/-- The C conversion of a 16-bit unsigned value to `int16_t`: two's-complement
reinterpretation. -/
def castToI16 (n : Nat) : Int := if n < 32768 then (n : Int) else (n : Int) - 65536

/-- `const uint16_t variableC = 64532;` from the source. -/
def variableC : Nat := 64532

/-- `const int16_t variableD = -6453;` from the source. -/
def variableD : Int := -6453

/-- `readBytes` of a store overlaid with `bytes` at `o` recovers `bytes`. -/
theorem readBytes_storeBytes (st : Store) (o : Nat) (bytes : List Nat) :
    readBytes (storeBytes st o bytes) o bytes.length = bytes := by
  apply List.ext_getElem
  · simp [readBytes]
  · intro i h1 h2
    simp only [readBytes, List.getElem_map, List.getElem_range, storeBytes]
    simp only [readBytes, List.length_map, List.length_range] at h1
    rw [if_pos ⟨Nat.le_add_right _ _, by omega⟩, Nat.add_sub_cancel_left]
    exact List.getD_eq_getElem bytes 0 h2

/-- On a faithful medium the post-write contents are exactly the overlay of
the payload on the (possibly erased) previous contents. -/
theorem writtenStore_faithful (a : NvsAttrs) (st : Store) (o : Nat)
    (bytes : List Nat) (mode : WriteMode) :
    writtenStore a faithfulMedium st o bytes mode =
      storeBytes (if mode.eraseFlag then eraseSpan a st o bytes.length else st) o bytes :=
  rfl

/-- On a faithful medium an in-bounds write succeeds (post-verification, when
requested, reads back exactly the payload). -/
theorem nvsWrite_faithful_ok (a : NvsAttrs) (st : Store) (o : Nat)
    (bytes : List Nat) (mode : WriteMode) (h : o + bytes.length ≤ a.regionSize) :
    nvsWrite a faithfulMedium st o bytes mode =
      (Except.ok (), writtenStore a faithfulMedium st o bytes mode) := by
  unfold nvsWrite
  rw [if_pos h, if_neg]
  intro hc
  exact hc.2 (by rw [writtenStore_faithful]; exact readBytes_storeBytes _ o bytes)

/-- C1: for every valid handle, offset `o` and byte sequence `bytes` with
`o + length(bytes) ≤ regionSize`, a read of `length(bytes)` bytes at `o`
performed after a prior successful `write(o, bytes, ERASE)` returns exactly
`bytes`; in particular each of the demo's four `NVS_read` calls at offsets
0x10000, 0x4000, 0x14000, 0x17000, performed after the corresponding
successful `NVS_write` with `NVS_WRITE_ERASE`, returns the four bytes that
write stored. -/
theorem write_read_round_trip (a : NvsAttrs) (st : Store) (o : Nat)
    (bytes : List Nat) (mode : WriteMode)
    (h : o + bytes.length ≤ a.regionSize) :
    (nvsWrite a faithfulMedium st o bytes mode).1 = Except.ok () ∧
    nvsRead a (nvsWrite a faithfulMedium st o bytes mode).2 o bytes.length =
      Except.ok bytes := by
  rw [nvsWrite_faithful_ok a st o bytes mode h]
  refine ⟨rfl, ?_⟩
  rw [nvsRead, if_pos h, writtenStore_faithful, readBytes_storeBytes]

/-- Witness for C1 at the demo configuration: the demo write of
`[240, 0xff, 0xff, 0xff]` at offset 0x10000 with
`NVS_WRITE_ERASE | NVS_WRITE_POST_VERIFY` succeeds and reading 4 bytes back
at 0x10000 returns those bytes. -/
theorem write_read_round_trip_demo :
    0x10000 + ([240, 0xff, 0xff, 0xff] : List Nat).length ≤ demoAttrs.regionSize ∧
    ((nvsWrite demoAttrs faithfulMedium (fun _ => 0) 0x10000
        [240, 0xff, 0xff, 0xff] eraseVerify).1 = Except.ok () ∧
     nvsRead demoAttrs
        (nvsWrite demoAttrs faithfulMedium (fun _ => 0) 0x10000
          [240, 0xff, 0xff, 0xff] eraseVerify).2 0x10000
        ([240, 0xff, 0xff, 0xff] : List Nat).length =
       Except.ok [240, 0xff, 0xff, 0xff]) :=
  ⟨by decide,
   write_read_round_trip demoAttrs (fun _ => 0) 0x10000
     [240, 0xff, 0xff, 0xff] eraseVerify (by decide)⟩

/-- C2: for every offset `o` and payload `bytes` whose span exceeds the
region (`o + length(bytes) > regionSize`), both the read of that span and the
write of `bytes` at `o` fail with `OutOfBoundsError`, and the write leaves
the stored contents of the region completely unchanged (no partial
mutation). -/
theorem out_of_bounds_no_mutation (a : NvsAttrs) (st : Store) (o : Nat)
    (bytes : List Nat) (mode : WriteMode) (medium : Nat → Nat → Nat)
    (h : a.regionSize < o + bytes.length) :
    nvsRead a st o bytes.length = Except.error NvsErr.outOfBounds ∧
    (nvsWrite a medium st o bytes mode).1 = Except.error NvsErr.outOfBounds ∧
    (nvsWrite a medium st o bytes mode).2 = st := by
  have hn : ¬ o + bytes.length ≤ a.regionSize := Nat.not_le.mpr h
  refine ⟨?_, ?_, ?_⟩ <;> simp [nvsRead, nvsWrite, hn]

/-- Witness for C2: at the demo configuration a 4-byte access at offset
0x18000 (one past the last valid 4-byte span start would be 0x17ffc; 0x18000
is the region size itself) is rejected by both read and write and the
contents are untouched. -/
theorem out_of_bounds_no_mutation_demo :
    demoAttrs.regionSize < 0x18000 + ([1, 2, 3, 4] : List Nat).length ∧
    (nvsRead demoAttrs (fun _ => 0xff) 0x18000 ([1, 2, 3, 4] : List Nat).length =
        Except.error NvsErr.outOfBounds ∧
     (nvsWrite demoAttrs faithfulMedium (fun _ => 0xff) 0x18000
        [1, 2, 3, 4] eraseVerify).1 = Except.error NvsErr.outOfBounds ∧
     (nvsWrite demoAttrs faithfulMedium (fun _ => 0xff) 0x18000
        [1, 2, 3, 4] eraseVerify).2 = (fun _ => 0xff)) :=
  ⟨by decide,
   out_of_bounds_no_mutation demoAttrs (fun _ => 0xff) 0x18000 [1, 2, 3, 4]
     eraseVerify faithfulMedium (by decide)⟩

/-- C3: in the demo configuration (region base 0x2000, sector size 0x1000,
region size 0x18000), from any prior region contents, a write at offset
0xe000 of the bytes `[240, 0xff, 0xff, 0xff]` with mode
`ERASE | POST_VERIFY` succeeds, and a subsequent read at offset 0xe000 of
length 4 returns `[240, 0xff, 0xff, 0xff]`. -/
theorem demo_end_to_end (st : Store) :
    demoAttrs = { regionBase := 0x2000, sectorSize := 0x1000, regionSize := 0x18000 } ∧
    (nvsWrite demoAttrs faithfulMedium st 0xe000
        [240, 0xff, 0xff, 0xff] eraseVerify).1 = Except.ok () ∧
    nvsRead demoAttrs
        (nvsWrite demoAttrs faithfulMedium st 0xe000
          [240, 0xff, 0xff, 0xff] eraseVerify).2 0xe000 4 =
      Except.ok [240, 0xff, 0xff, 0xff] := by
  have hb : 0xe000 + ([240, 0xff, 0xff, 0xff] : List Nat).length ≤ demoAttrs.regionSize := by
    decide
  rw [nvsWrite_faithful_ok demoAttrs st 0xe000 [240, 0xff, 0xff, 0xff] eraseVerify hb]
  refine ⟨rfl, rfl, ?_⟩
  have h4 : (4 : Nat) = ([240, 0xff, 0xff, 0xff] : List Nat).length := rfl
  rw [nvsRead, if_pos (by decide), writtenStore_faithful, h4, readBytes_storeBytes]

/-- Witness for C3 starting from the all-zeros region contents. -/
theorem demo_end_to_end_demo :
    demoAttrs = { regionBase := 0x2000, sectorSize := 0x1000, regionSize := 0x18000 } ∧
    (nvsWrite demoAttrs faithfulMedium (fun _ => 0) 0xe000
        [240, 0xff, 0xff, 0xff] eraseVerify).1 = Except.ok () ∧
    nvsRead demoAttrs
        (nvsWrite demoAttrs faithfulMedium (fun _ => 0) 0xe000
          [240, 0xff, 0xff, 0xff] eraseVerify).2 0xe000 4 =
      Except.ok [240, 0xff, 0xff, 0xff] :=
  demo_end_to_end (fun _ => 0)

/-- C5: when an in-bounds write with `POST_VERIFY` fails with `VerifyError`,
the region retains the last attempted write (no automatic rollback): the
resulting contents are exactly what the medium retained, a subsequent read of
the same span succeeds and returns that retained (corrupted) content, and
that content differs from the originally intended `bytes`. -/
theorem verify_error_exposes_corruption (a : NvsAttrs) (medium : Nat → Nat → Nat)
    (st : Store) (o : Nat) (bytes : List Nat) (mode : WriteMode)
    (hb : o + bytes.length ≤ a.regionSize)
    (hv : (nvsWrite a medium st o bytes mode).1 = Except.error NvsErr.verifyError) :
    (nvsWrite a medium st o bytes mode).2 = writtenStore a medium st o bytes mode ∧
    nvsRead a (nvsWrite a medium st o bytes mode).2 o bytes.length =
      Except.ok (readBytes (writtenStore a medium st o bytes mode) o bytes.length) ∧
    readBytes (writtenStore a medium st o bytes mode) o bytes.length ≠ bytes := by
  unfold nvsWrite at hv ⊢
  rw [if_pos hb] at hv ⊢
  by_cases hc : mode.postVerify = true ∧
      readBytes (writtenStore a medium st o bytes mode) o bytes.length ≠ bytes
  · rw [if_pos hc] at hv ⊢
    exact ⟨rfl, by rw [nvsRead, if_pos hb], hc.2⟩
  · rw [if_neg hc] at hv
    exact absurd hv (by simp)

/-- A demonstration medium that corrupts the byte programmed at offset
0xe000 (retaining 0 there instead of the requested byte) and is faithful
everywhere else. -/
def corruptAtE000 : Nat → Nat → Nat := fun i b => if i = 0xe000 then 0 else b

/-- Witness for C5: on the corrupting medium, the demo-style write of
`[240, 0xff, 0xff, 0xff]` at 0xe000 with `ERASE | POST_VERIFY` fails with
`VerifyError`, the read of that span returns the retained content, that
content differs from the intended bytes — and it is concretely
`[0, 0xff, 0xff, 0xff]`, the corrupted value. -/
theorem verify_error_exposes_corruption_demo :
    0xe000 + ([240, 0xff, 0xff, 0xff] : List Nat).length ≤ demoAttrs.regionSize ∧
    (nvsWrite demoAttrs corruptAtE000 (fun _ => 0) 0xe000
        [240, 0xff, 0xff, 0xff] eraseVerify).1 = Except.error NvsErr.verifyError ∧
    ((nvsWrite demoAttrs corruptAtE000 (fun _ => 0) 0xe000
        [240, 0xff, 0xff, 0xff] eraseVerify).2 =
      writtenStore demoAttrs corruptAtE000 (fun _ => 0) 0xe000
        [240, 0xff, 0xff, 0xff] eraseVerify ∧
     nvsRead demoAttrs
        (nvsWrite demoAttrs corruptAtE000 (fun _ => 0) 0xe000
          [240, 0xff, 0xff, 0xff] eraseVerify).2 0xe000
        ([240, 0xff, 0xff, 0xff] : List Nat).length =
       Except.ok (readBytes
         (writtenStore demoAttrs corruptAtE000 (fun _ => 0) 0xe000
           [240, 0xff, 0xff, 0xff] eraseVerify) 0xe000
         ([240, 0xff, 0xff, 0xff] : List Nat).length) ∧
     readBytes
        (writtenStore demoAttrs corruptAtE000 (fun _ => 0) 0xe000
          [240, 0xff, 0xff, 0xff] eraseVerify) 0xe000
        ([240, 0xff, 0xff, 0xff] : List Nat).length ≠ [240, 0xff, 0xff, 0xff]) ∧
    readBytes
        (writtenStore demoAttrs corruptAtE000 (fun _ => 0) 0xe000
          [240, 0xff, 0xff, 0xff] eraseVerify) 0xe000
        ([240, 0xff, 0xff, 0xff] : List Nat).length = [0, 0xff, 0xff, 0xff] :=
  ⟨by decide, by rfl,
   verify_error_exposes_corruption demoAttrs corruptAtE000 (fun _ => 0) 0xe000
     [240, 0xff, 0xff, 0xff] eraseVerify (by decide) (by rfl),
   by rfl⟩

/-- C6: after a write with `ERASE` mode on a faithful medium, reading any
in-region offset that lies in one of the erased (containing) sectors but is
not covered by the new payload returns the erased-state byte pattern `0xff`
(all bits set), never stale pre-erase data. -/
theorem erase_returns_erased_pattern (a : NvsAttrs) (st : Store) (o : Nat)
    (bytes : List Nat) (mode : WriteMode) (i : Nat)
    (hm : mode.eraseFlag = true)
    (hb : o + bytes.length ≤ a.regionSize)
    (hl : 0 < bytes.length)
    (hs1 : sectorOf a o ≤ sectorOf a i)
    (hs2 : sectorOf a i ≤ sectorOf a (o + bytes.length - 1))
    (hout : ¬ (o ≤ i ∧ i < o + bytes.length))
    (hi : i + 1 ≤ a.regionSize) :
    nvsRead a (nvsWrite a faithfulMedium st o bytes mode).2 i 1 =
      Except.ok [0xff] := by
  rw [nvsWrite_faithful_ok a st o bytes mode hb, nvsRead, if_pos hi]
  congr 1
  rw [writtenStore_faithful, if_pos hm]
  have hr1 : List.range 1 = [0] := rfl
  simp only [readBytes, hr1, List.map_cons, List.map_nil, Nat.add_zero, storeBytes]
  rw [if_neg hout]
  simp only [eraseSpan]
  rw [if_pos ⟨hl, hs1, hs2⟩]

/-- Witness for C6: in the demo configuration, after writing
`[240, 0xff, 0xff, 0xff]` at 0xe000 with `ERASE | POST_VERIFY` over a region
previously holding 0 everywhere, reading offset 0xe100 — inside the erased
sector 14 but outside the payload span — returns `[0xff]`. -/
theorem erase_returns_erased_pattern_demo :
    (eraseVerify.eraseFlag = true ∧
     0xe000 + ([240, 0xff, 0xff, 0xff] : List Nat).length ≤ demoAttrs.regionSize ∧
     0 < ([240, 0xff, 0xff, 0xff] : List Nat).length ∧
     sectorOf demoAttrs 0xe000 ≤ sectorOf demoAttrs 0xe100 ∧
     sectorOf demoAttrs 0xe100 ≤
       sectorOf demoAttrs (0xe000 + ([240, 0xff, 0xff, 0xff] : List Nat).length - 1) ∧
     ¬ (0xe000 ≤ 0xe100 ∧
        0xe100 < 0xe000 + ([240, 0xff, 0xff, 0xff] : List Nat).length) ∧
     0xe100 + 1 ≤ demoAttrs.regionSize) ∧
    nvsRead demoAttrs
        (nvsWrite demoAttrs faithfulMedium (fun _ => 0) 0xe000
          [240, 0xff, 0xff, 0xff] eraseVerify).2 0xe100 1 =
      Except.ok [0xff] :=
  ⟨⟨by decide, by decide, by decide, by decide, by decide, by decide, by decide⟩,
   erase_returns_erased_pattern demoAttrs (fun _ => 0) 0xe000
     [240, 0xff, 0xff, 0xff] eraseVerify 0xe100 (by decide) (by decide) (by decide)
     (by decide) (by decide) (by decide) (by decide)⟩

/-- C7: for every handle obtained from a valid configuration, the handle's
sector size evenly divides its region size; in the demo configuration the
attributes populated by `NVS_getAttrs` are sector size 0x1000 and region size
0x1000 * 24, and the divisibility holds there. -/
theorem sector_size_divides_region_size (cfg h : NvsAttrs)
    (hopen : nvsOpen cfg = some h) :
    (getAttrs h).sectorSize ∣ (getAttrs h).regionSize ∧
    (getAttrs demoAttrs).sectorSize = 0x1000 ∧
    (getAttrs demoAttrs).regionSize = 0x1000 * 24 ∧
    (getAttrs demoAttrs).sectorSize ∣ (getAttrs demoAttrs).regionSize := by
  unfold nvsOpen at hopen
  by_cases hc : 0 < cfg.sectorSize ∧ cfg.regionSize % cfg.sectorSize = 0 ∧
      cfg.regionBase % cfg.sectorSize = 0
  · rw [if_pos hc] at hopen
    obtain rfl : cfg = h := by injection hopen
    exact ⟨Nat.dvd_of_mod_eq_zero hc.2.1, rfl, rfl, by decide⟩
  · rw [if_neg hc] at hopen
    exact absurd hopen (by simp)

/-- Witness for C7: opening the demo configuration succeeds and yields a
handle whose sector size divides its region size. -/
theorem sector_size_divides_region_size_demo :
    nvsOpen demoAttrs = some demoAttrs ∧
    ((getAttrs demoAttrs).sectorSize ∣ (getAttrs demoAttrs).regionSize ∧
     (getAttrs demoAttrs).sectorSize = 0x1000 ∧
     (getAttrs demoAttrs).regionSize = 0x1000 * 24 ∧
     (getAttrs demoAttrs).sectorSize ∣ (getAttrs demoAttrs).regionSize) :=
  ⟨by decide, sector_size_divides_region_size demoAttrs demoAttrs (by decide)⟩

/-- C8: if `Display_open` returns NULL, `mainThread` enters the infinite
`while (1);` loop and never proceeds: no NVS operation (`NVS_open`,
`NVS_getAttrs`, `NVS_read` or `NVS_write`) is ever issued and the thread
never returns, whatever `NVS_open` would have done. -/
theorem display_open_failure_halts (nvsOpenOk : Bool) :
    mainThreadNvsOps false nvsOpenOk = ([], false) :=
  rfl

/-- Witness for C8 in the environment where `NVS_open` would have
succeeded. -/
theorem display_open_failure_halts_demo :
    mainThreadNvsOps false true = ([], false) :=
  display_open_failure_halts true

/-- C9: every `NVS_read` and `NVS_write` issued by `mainThread` uses one of
exactly the four offsets 0x4000, 0x10000, 0x14000, 0x17000 with length 4;
each offset is a multiple of the sector size 0x1000, each span lies within
the 0x18000-byte region, and each span stays inside a single sector. -/
theorem demo_accesses_in_bounds (o l : Nat)
    (hmem : NvsOp.readOp o l ∈ (mainThreadNvsOps true true).1 ∨
            ∃ m, NvsOp.writeOp o l m ∈ (mainThreadNvsOps true true).1) :
    (o = 0x4000 ∨ o = 0x10000 ∨ o = 0x14000 ∨ o = 0x17000) ∧
    l = 4 ∧ o % 0x1000 = 0 ∧ o + l ≤ 0x18000 ∧
    o / 0x1000 = (o + l - 1) / 0x1000 := by
  rcases hmem with h | ⟨m, h⟩
  · simp [mainThreadNvsOps] at h
    rcases h with ⟨rfl, rfl⟩ | ⟨rfl, rfl⟩ | ⟨rfl, rfl⟩ | ⟨rfl, rfl⟩ <;> decide
  · simp [mainThreadNvsOps] at h
    rcases h with ⟨rfl, rfl, rfl⟩ | ⟨rfl, rfl, rfl⟩ | ⟨rfl, rfl, rfl⟩ | ⟨rfl, rfl, rfl⟩
      <;> decide

/-- Witness for C9 at the first demo read, offset 0x10000 with length 4. -/
theorem demo_accesses_in_bounds_demo :
    (NvsOp.readOp 0x10000 4 ∈ (mainThreadNvsOps true true).1 ∨
     ∃ m, NvsOp.writeOp 0x10000 4 m ∈ (mainThreadNvsOps true true).1) ∧
    ((0x10000 = 0x4000 ∨ 0x10000 = 0x10000 ∨ 0x10000 = 0x14000 ∨
      0x10000 = 0x17000) ∧
     4 = 4 ∧ 0x10000 % 0x1000 = 0 ∧ 0x10000 + 4 ≤ 0x18000 ∧
     0x10000 / 0x1000 = (0x10000 + 4 - 1) / 0x1000) :=
  ⟨Or.inl (by decide), demo_accesses_in_bounds 0x10000 4 (Or.inl (by decide))⟩

/-- C10: every `NVS_write` issued by `mainThread` passes the mode
`NVS_WRITE_ERASE | NVS_WRITE_POST_VERIFY`: the demo never writes without
erasing the containing sector first nor without post-write verification. -/
theorem demo_writes_always_erase_verify (o l : Nat) (m : WriteMode)
    (hmem : NvsOp.writeOp o l m ∈ (mainThreadNvsOps true true).1) :
    m.eraseFlag = true ∧ m.postVerify = true := by
  simp [mainThreadNvsOps] at hmem
  rcases hmem with ⟨rfl, rfl, rfl⟩ | ⟨rfl, rfl, rfl⟩ | ⟨rfl, rfl, rfl⟩ | ⟨rfl, rfl, rfl⟩
    <;> decide

/-- Witness for C10 at the first demo write, offset 0x10000. -/
theorem demo_writes_always_erase_verify_demo :
    NvsOp.writeOp 0x10000 4 eraseVerify ∈ (mainThreadNvsOps true true).1 ∧
    (eraseVerify.eraseFlag = true ∧ eraseVerify.postVerify = true) :=
  ⟨by decide, demo_writes_always_erase_verify 0x10000 4 eraseVerify (by decide)⟩

/-- The low-byte mask `v & 0x00FF` extracts `v mod 256`. -/
theorem enc16lo_eq (v : Nat) : enc16lo v = v % 256 := by
  have h : (0x00FF : Nat) = 2 ^ 8 - 1 := rfl
  rw [enc16lo, h, Nat.and_pow_two_sub_one_eq_mod]

/-- The high-byte extraction `(v & 0xFF00) >> 8` yields `v / 256 mod 256`. -/
theorem enc16hi_eq (v : Nat) : enc16hi v = v / 256 % 256 := by
  apply Nat.eq_of_testBit_eq
  intro i
  have h1 : (0xFF00 : Nat) = (2 ^ 8 - 1) <<< 8 := rfl
  have h256 : (256 : Nat) = 2 ^ 8 := rfl
  rw [enc16hi, h1, h256, Nat.testBit_shiftRight, Nat.testBit_and,
    Nat.testBit_shiftLeft, Nat.testBit_two_pow_sub_one, Nat.testBit_mod_two_pow,
    ← Nat.shiftRight_eq_div_pow, Nat.testBit_shiftRight]
  have e1 : 8 + i - 8 = i := by omega
  rw [e1]
  by_cases hi : i < 8 <;> simp [hi, Bool.and_comm]

/-- Decoding the two encoded bytes of any 16-bit value recovers it. -/
theorem le16_round_trip_aux (v : Nat) (h : v < 65536) :
    dec16 (enc16lo v) (enc16hi v) = v := by
  rw [enc16lo_eq, enc16hi_eq, dec16, Nat.lor_comm, Nat.shiftLeft_eq, Nat.mul_comm]
  have hb : v % 256 < 2 ^ 8 := Nat.mod_lt v (by norm_num)
  rw [← Nat.mul_add_lt_is_or hb (v / 256 % 256)]
  show 256 * (v / 256 % 256) + v % 256 = v
  omega

/-- A signed 16-bit value cast to `uint16_t`, encoded, decoded, and cast back
to `int16_t` is unchanged. -/
theorem cast_round_trip_aux (x : Int) (h1 : -32768 ≤ x) (h2 : x < 32768) :
    castToI16 (dec16 (enc16lo (castToU16 x)) (enc16hi (castToU16 x))) = x := by
  have hlt : castToU16 x < 65536 := by
    rw [castToU16]; omega
  rw [le16_round_trip_aux _ hlt, castToU16, castToI16]
  split <;> omega

/-- C4: 16-bit values are serialized little-endian, low byte first: for every
16-bit value `v`, the demo's encoding (`buffer[0] = v & 0x00FF`,
`buffer[1] = (v & 0xFF00) >> 8`) followed by its decoding
(`buffer[0] | (buffer[1] << 8)`) yields `v` back exactly; every signed value
in `int16_t` range round-trips through the `uint16_t` cast unchanged; and in
particular the decoded values for `variableC = 64532` and
`variableD = -6453` equal the originals. -/
theorem le16_serialization_round_trip :
    (∀ v : Nat, v < 65536 → dec16 (enc16lo v) (enc16hi v) = v) ∧
    (∀ x : Int, -32768 ≤ x → x < 32768 →
      castToI16 (dec16 (enc16lo (castToU16 x)) (enc16hi (castToU16 x))) = x) ∧
    dec16 (enc16lo variableC) (enc16hi variableC) = variableC ∧
    castToI16 (dec16 (enc16lo (castToU16 variableD)) (enc16hi (castToU16 variableD))) =
      variableD :=
  ⟨fun v h => le16_round_trip_aux v h,
   fun x h1 h2 => cast_round_trip_aux x h1 h2,
   by decide, by decide⟩

/-- Witness for C4 at the source's test values `variableC = 64532` and
`variableD = -6453`. -/
theorem le16_serialization_round_trip_demo :
    variableC < 65536 ∧
    dec16 (enc16lo variableC) (enc16hi variableC) = variableC ∧
    -32768 ≤ variableD ∧ variableD < 32768 ∧
    castToI16 (dec16 (enc16lo (castToU16 variableD)) (enc16hi (castToU16 variableD))) =
      variableD :=
  ⟨by decide, le16_serialization_round_trip.1 variableC (by decide),
   by decide, by decide,
   le16_serialization_round_trip.2.1 variableD (by decide) (by decide)⟩

end NvsDemo
